import Mathlib

/-!
File-browser API requests (`src/filebrowser/file-browser-requests.cpp`).

A shallow embedding of the thirteen request classes of the file browser: how each
constructor fills in the HTTP request, and what each `requestSuccess` handler emits
for a given reply.

Conventions of the embedding:

* a `QByteArray` is a list of bytes, a `QString` a list of 16-bit code units;
* the Qt and jansson library calls the handlers make (`QString(QByteArray)`,
  `QUrl::isValid`, JSON parsing) are fields of `Collab`, so every theorem holds for
  whatever those libraries compute;
* a handler returns the ordered log of its observable effects; `emit` entries are the
  Qt signals it fires.
-/

set_option autoImplicit false

namespace FileBrowser

/-! ## Qt value types -/

/-- One byte of a `QByteArray`. -/
abbrev Byte := Fin 256

/-- A `QByteArray`: a finite sequence of bytes. -/
abbrev QByteArray := List Byte

/-- One `QChar`: a 16-bit code unit. -/
abbrev QChar := Fin 65536

/-- A `QString`: a finite sequence of `QChar`. `QString::size` and `QString::length`
are `List.length`; a default-constructed `QString` is `[]`. -/
abbrev QString := List QChar

/-- The bytes of an ASCII literal such as the `"oid"` in `rawHeader("oid")`. -/
def ascii (s : String) : QByteArray := s.toList.map (fun ch => Fin.ofNat ch.toNat)

/-- The `QString` of a literal such as the `"p"` in `setUrlParam("p", path)`. -/
def qs (s : String) : QString := s.toList.map (fun ch => Fin.ofNat ch.toNat)

/-- `QString::remove(position, n)`: drops `n` code units starting at `position`
(fewer when the string ends first, none when `position` is past the end). -/
def QString.remove (s : QString) (position n : Nat) : QString :=
  s.take position ++ s.drop (position + n)

/-- `QString::chop(n)`: drops `n` code units from the end (everything when `n` is
at least the size). -/
def QString.chop (s : QString) (n : Nat) : QString :=
  s.take (s.length - n)

/-! ## The reply handed to a handler -/

/-- ASCII lower-casing of one byte, as used by the case-insensitive header lookup. -/
def toLowerByte (b : Byte) : Byte :=
  if 65 ≤ b.val ∧ b.val ≤ 90 then Fin.ofNat (b.val + 32) else b

/-- A `QNetworkReply` as far as the handlers read it: the raw headers in the order
the server sent them, and the body returned by `readAll()`. -/
structure QNetworkReply where
  rawHeaders : List (QByteArray × QByteArray)
  body : QByteArray

/-- The first raw header whose name equals `name` up to ASCII case. -/
def QNetworkReply.findRawHeader (reply : QNetworkReply) (name : QByteArray) :
    Option (QByteArray × QByteArray) :=
  reply.rawHeaders.find? (fun h => h.1.map toLowerByte == name.map toLowerByte)

/-- `QNetworkReply::hasRawHeader`. -/
def QNetworkReply.hasRawHeader (reply : QNetworkReply) (name : QByteArray) : Bool :=
  (reply.findRawHeader name).isSome

/-- `QNetworkReply::rawHeader`: the value of the header, or an empty byte array when
there is no such header. -/
def QNetworkReply.rawHeader (reply : QNetworkReply) (name : QByteArray) : QByteArray :=
  match reply.findRawHeader name with
  | some h => h.2
  | none => []

/-- `QNetworkReply::readAll()`. Every handler calls it at most once, so the body is
read whole. -/
def QNetworkReply.readAll (reply : QNetworkReply) : QByteArray := reply.body

/-! ## JSON trees and directory entries -/

/-- A parsed JSON document (the `json_t` tree jansson returns). -/
inductive Json where
  | null
  | bool (b : Bool)
  | num (n : Int)
  | str (s : QString)
  | arr (items : List Json)
  | obj (members : List (QString × Json))

/-- The `json_error_t` out-parameter: only its text is ever read. -/
structure json_error_t where
  text : QString
  deriving DecidableEq, Repr

/-- The kind of a directory entry. -/
inductive DirentType where
  | FILE
  | DIR
  deriving DecidableEq, Repr

/-- Modelled from the spec: the `SeafDirent` record (`seaf-dirent.h` is not under
src/). Section 3: name, type, 40-character content id, optional size, optional
modification time. -/
structure SeafDirent where
  name : QString
  type : DirentType
  id : QString
  size : Option Int
  mtime : Option Int
  deriving DecidableEq, Repr

/-! ## Errors -/

/-- Modelled from the spec: the error kinds of section 7 (`api/api-error.h` is not
under src/). -/
inductive ErrorKind where
  | TRANSPORT_ERROR
  | DECODE_ERROR
  | MALFORMED_RESPONSE
  deriving DecidableEq, Repr

/-- Modelled from the spec: the `ApiError` value of section 3 (`api/api-error.h` is
not under src/): a kind, an optional HTTP status and an optional message. -/
structure ApiError where
  kind : ErrorKind
  httpStatus : Option Int
  message : Option QString
  deriving DecidableEq, Repr

/-- Modelled from the spec: `ApiError::fromHttpError(code)`, the classifier entry that
maps an HTTP status code to an error (`api/api-error.cpp` is not under src/).
Section 7: an error made from an HTTP status is a `TRANSPORT_ERROR` and carries the
status code; a fault reported with status 500 is a `TRANSPORT_ERROR` with status
500. -/
def ApiError.fromHttpError (code : Int) : ApiError :=
  { kind := ErrorKind.TRANSPORT_ERROR, httpStatus := some code, message := none }

/-- Modelled from the spec: `ApiError::fromJsonError()`, the classifier entry for a
JSON-decoding failure (`api/api-error.cpp` is not under src/). Section 7: body
received but JSON decoding failed is a `DECODE_ERROR`. -/
def ApiError.fromJsonError : ApiError :=
  { kind := ErrorKind.DECODE_ERROR, httpStatus := none, message := none }

/-! ## Library collaborators -/

/-- The library calls the handlers make, taken as given.

* `toQString` is the implicit `QString(const QByteArray&)` conversion; it maps the
  empty byte array to the empty string.
* `isValid s` is `QUrl(s).isValid()`.
* `parseJSON` is `SeafileApiRequest::parseJSON` applied to the reply body: the root
  on success, a null root with the error filled in otherwise.
* `listFromJSON` is `SeafDirent::listFromJSON(json, &error)`: the list it returns by
  value, and what it leaves in the `error` out-parameter (`none` when untouched). -/
structure Collab where
  toQString : QByteArray → QString
  toQString_nil : toQString [] = []
  isValid : QString → Bool
  parseJSON : QByteArray → Except json_error_t Json
  listFromJSON : Json → List SeafDirent × Option json_error_t

/-! ## Signals and effect logs -/

/-- What a `success` signal carries: the dirent list of a listing, a string, or
nothing (`success()`). -/
inductive Payload where
  | dirents (l : List SeafDirent)
  | text (s : QString)
  | unit
  deriving DecidableEq, Repr

/-- The two terminal signals of a request. -/
inductive Signal where
  | success (p : Payload)
  | failed (e : ApiError)
  deriving DecidableEq, Repr

/-- One observable effect of a handler, in program order. -/
inductive Effect where
  | parseJSON
  | listFromJSON
  | emit (s : Signal)
  deriving DecidableEq, Repr

/-- The signals emitted by a run, in order. -/
def emitted : List Effect → List Signal
  | [] => []
  | Effect.emit s :: rest => s :: emitted rest
  | _ :: rest => emitted rest

/-! ## `GetDirentsRequest` -/

/-- `GetDirentsRequest::requestSuccess` (lines 38-59). The `qDebug` line is not an
observable effect of the request and is left out. -/
def GetDirentsRequest.requestSuccess (c : Collab) (reply : QNetworkReply) : List Effect :=
  let dir_id : QString := c.toQString (reply.rawHeader (ascii "oid"))
  if dir_id.length ≠ 40 then
    [Effect.emit (Signal.failed (ApiError.fromHttpError 500))]
  else
    match c.parseJSON reply.readAll with
    | Except.error _ =>
      [Effect.parseJSON, Effect.emit (Signal.failed ApiError.fromJsonError)]
    | Except.ok root =>
      let dirents := (c.listFromJSON root).1
      [Effect.parseJSON, Effect.listFromJSON, Effect.emit (Signal.success (Payload.dirents dirents))]

/-! ## The three link handlers and the remaining handlers -/

/-- The object state of a `GetFileDownloadLinkRequest`: the member `file_id_`. -/
structure GetFileDownloadLinkRequest where
  file_id_ : QString
  deriving DecidableEq, Repr

/-- `GetFileDownloadLinkRequest::requestSuccess` (lines 71-94): the object after the
call and the effects of the call. The `do ... while (0)` block runs once; each
`break` falls through to the final `emit failed`. -/
def GetFileDownloadLinkRequest.requestSuccess (c : Collab)
    (self : GetFileDownloadLinkRequest) (reply : QNetworkReply) :
    GetFileDownloadLinkRequest × List Effect :=
  let reply_content : QString := c.toQString reply.readAll
  let oid : QString :=
    if reply.hasRawHeader (ascii "oid") then c.toQString (reply.rawHeader (ascii "oid")) else []
  if reply_content.length ≤ 2 then
    (self, [Effect.emit (Signal.failed (ApiError.fromHttpError 500))])
  else
    let reply_content := (reply_content.remove 0 1).chop 1
    if !c.isValid reply_content then
      (self, [Effect.emit (Signal.failed (ApiError.fromHttpError 500))])
    else
      ({ self with file_id_ := oid }, [Effect.emit (Signal.success (Payload.text reply_content))])

/-- `GetSharedLinkRequest::requestSuccess` (lines 108-113). -/
def GetSharedLinkRequest.requestSuccess (c : Collab) (reply : QNetworkReply) : List Effect :=
  let reply_content : QString := c.toQString (reply.rawHeader (ascii "Location"))
  [Effect.emit (Signal.success (Payload.text reply_content))]

/-- `CreateDirentRequest::requestSuccess` (lines 127-132). -/
def CreateDirentRequest.requestSuccess (c : Collab) (reply : QNetworkReply) : List Effect :=
  let reply_content : QString := c.toQString reply.readAll
  [Effect.emit (Signal.success (Payload.text reply_content))]

/-- `RenameDirentRequest::requestSuccess` (lines 148-151). -/
def RenameDirentRequest.requestSuccess (_reply : QNetworkReply) : List Effect :=
  [Effect.emit (Signal.success Payload.unit)]

/-- `RemoveDirentRequest::requestSuccess` (lines 163-166). -/
def RemoveDirentRequest.requestSuccess (_reply : QNetworkReply) : List Effect :=
  [Effect.emit (Signal.success Payload.unit)]

/-- `GetFileUploadLinkRequest::requestSuccess` (lines 176-194). -/
def GetFileUploadLinkRequest.requestSuccess (c : Collab) (reply : QNetworkReply) : List Effect :=
  let reply_content : QString := c.toQString reply.readAll
  if reply_content.length ≤ 2 then
    [Effect.emit (Signal.failed (ApiError.fromHttpError 500))]
  else
    let reply_content := (reply_content.remove 0 1).chop 1
    if !c.isValid reply_content then
      [Effect.emit (Signal.failed (ApiError.fromHttpError 500))]
    else
      [Effect.emit (Signal.success (Payload.text reply_content))]

/-- `GetFileUpdateLinkRequest::requestSuccess` (lines 204-222). -/
def GetFileUpdateLinkRequest.requestSuccess (c : Collab) (reply : QNetworkReply) : List Effect :=
  let reply_content : QString := c.toQString reply.readAll
  if reply_content.length ≤ 2 then
    [Effect.emit (Signal.failed (ApiError.fromHttpError 500))]
  else
    let reply_content := (reply_content.remove 0 1).chop 1
    if !c.isValid reply_content then
      [Effect.emit (Signal.failed (ApiError.fromHttpError 500))]
    else
      [Effect.emit (Signal.success (Payload.text reply_content))]

/-- `RenameFileRequest::requestSuccess` (lines 238-241). -/
def RenameFileRequest.requestSuccess (_reply : QNetworkReply) : List Effect :=
  [Effect.emit (Signal.success Payload.unit)]

/-- `MoveFileRequest::requestSuccess` (lines 259-262). -/
def MoveFileRequest.requestSuccess (_reply : QNetworkReply) : List Effect :=
  [Effect.emit (Signal.success Payload.unit)]

/-- `RemoveFileRequest::requestSuccess` (lines 274-277). -/
def RemoveFileRequest.requestSuccess (_reply : QNetworkReply) : List Effect :=
  [Effect.emit (Signal.success Payload.unit)]

/-- `StarFileRequest::requestSuccess` (lines 290-293). -/
def StarFileRequest.requestSuccess (_reply : QNetworkReply) : List Effect :=
  [Effect.emit (Signal.success Payload.unit)]

/-- `UnstarFileRequest::requestSuccess` (lines 306-309). -/
def UnstarFileRequest.requestSuccess (_reply : QNetworkReply) : List Effect :=
  [Effect.emit (Signal.success Payload.unit)]

/-- The thirteen request classes of the file. -/
inductive RequestClass where
  | GetDirentsRequest
  | GetFileDownloadLinkRequest
  | GetSharedLinkRequest
  | CreateDirentRequest
  | RenameDirentRequest
  | RemoveDirentRequest
  | GetFileUploadLinkRequest
  | GetFileUpdateLinkRequest
  | RenameFileRequest
  | MoveFileRequest
  | RemoveFileRequest
  | StarFileRequest
  | UnstarFileRequest
  deriving DecidableEq, Repr

/-- The virtual call `request->requestSuccess(reply)`: the effects of the handler of
the given class. `self` is the state of the download-link object and is read by no
other class. -/
def requestSuccess (c : Collab) (k : RequestClass) (self : GetFileDownloadLinkRequest)
    (reply : QNetworkReply) : List Effect :=
  match k with
  | RequestClass.GetDirentsRequest => GetDirentsRequest.requestSuccess c reply
  | RequestClass.GetFileDownloadLinkRequest =>
    (GetFileDownloadLinkRequest.requestSuccess c self reply).2
  | RequestClass.GetSharedLinkRequest => GetSharedLinkRequest.requestSuccess c reply
  | RequestClass.CreateDirentRequest => CreateDirentRequest.requestSuccess c reply
  | RequestClass.RenameDirentRequest => RenameDirentRequest.requestSuccess reply
  | RequestClass.RemoveDirentRequest => RemoveDirentRequest.requestSuccess reply
  | RequestClass.GetFileUploadLinkRequest => GetFileUploadLinkRequest.requestSuccess c reply
  | RequestClass.GetFileUpdateLinkRequest => GetFileUpdateLinkRequest.requestSuccess c reply
  | RequestClass.RenameFileRequest => RenameFileRequest.requestSuccess reply
  | RequestClass.MoveFileRequest => MoveFileRequest.requestSuccess reply
  | RequestClass.RemoveFileRequest => RemoveFileRequest.requestSuccess reply
  | RequestClass.StarFileRequest => StarFileRequest.requestSuccess reply
  | RequestClass.UnstarFileRequest => UnstarFileRequest.requestSuccess reply

/-- The three classes whose handler unwraps a quoted URL. -/
inductive LinkClass where
  | download
  | upload
  | update
  deriving DecidableEq, Repr

/-- The request class of a link handler. -/
def LinkClass.toRequestClass : LinkClass → RequestClass
  | LinkClass.download => RequestClass.GetFileDownloadLinkRequest
  | LinkClass.upload => RequestClass.GetFileUploadLinkRequest
  | LinkClass.update => RequestClass.GetFileUpdateLinkRequest

/-! ## `QString::arg` -/

/-- A piece of a scanned template: a plain code unit, or a place marker `%n` / `%Ln`
together with the text it was written as. -/
inductive ArgTok where
  | lit (ch : QChar)
  | esc (n : Nat) (raw : QString)
  deriving DecidableEq, Repr

/-- Where the marker scanner stands: in plain text, after `%`, after `%L`, or after
the first digit of a marker. -/
inductive ArgState where
  | plain
  | pct
  | pctL
  | digit (raw : QString) (d : Nat)
  deriving DecidableEq, Repr

/-- The decimal value of an ASCII digit, if the code unit is one. The templates of
this file contain no other digits. -/
def digitValue (ch : QChar) : Option Nat :=
  if 48 ≤ ch.val ∧ ch.val ≤ 57 then some (ch.val - 48) else none

/-- A code unit read in plain text: `%` opens a marker. -/
def argPlain (ch : QChar) : List ArgTok × ArgState :=
  if ch.val = 37 then ([], ArgState.pct) else ([ArgTok.lit ch], ArgState.plain)

/-- One step of the marker scanner (`findArgEscapes`): a marker is `%`, an optional
`L`, and one or two digits; a `%` not followed by a digit is plain text and scanning
resumes at the code unit that broke the marker. -/
def argStep (st : ArgState) (ch : QChar) : List ArgTok × ArgState :=
  match st with
  | ArgState.plain => argPlain ch
  | ArgState.pct =>
    if ch.val = 76 then ([], ArgState.pctL)
    else match digitValue ch with
      | some d => ([], ArgState.digit [37, ch] d)
      | none => ([ArgTok.lit 37] ++ (argPlain ch).1, (argPlain ch).2)
  | ArgState.pctL =>
    match digitValue ch with
    | some d => ([], ArgState.digit [37, 76, ch] d)
    | none => ([ArgTok.lit 37, ArgTok.lit 76] ++ (argPlain ch).1, (argPlain ch).2)
  | ArgState.digit raw d =>
    match digitValue ch with
    | some e => ([ArgTok.esc (10 * d + e) (raw ++ [ch])], ArgState.plain)
    | none => ([ArgTok.esc d raw] ++ (argPlain ch).1, (argPlain ch).2)

/-- What an unfinished marker contributes at the end of the template. -/
def argFlush : ArgState → List ArgTok
  | ArgState.plain => []
  | ArgState.pct => [ArgTok.lit 37]
  | ArgState.pctL => [ArgTok.lit 37, ArgTok.lit 76]
  | ArgState.digit raw d => [ArgTok.esc d raw]

/-- The template cut into plain code units and place markers. -/
def argScan (st : ArgState) : QString → List ArgTok
  | [] => argFlush st
  | ch :: rest => (argStep st ch).1 ++ argScan (argStep st ch).2 rest

/-- The lowest marker number of a scanned template, if it has a marker. -/
def argMin : List ArgTok → Option Nat
  | [] => none
  | ArgTok.lit _ :: rest => argMin rest
  | ArgTok.esc n _ :: rest =>
    match argMin rest with
    | some m => some (min n m)
    | none => some n

/-- The scanned template written out again, every marker numbered `m` replaced by
`a`. -/
def argFill (m : Nat) (a : QString) : List ArgTok → QString
  | [] => []
  | ArgTok.lit ch :: rest => ch :: argFill m a rest
  | ArgTok.esc n raw :: rest => (if n = m then a else raw) ++ argFill m a rest

/-- `QString::arg(const QString &a)`: every occurrence of the lowest-numbered place
marker is replaced by `a`; a template with no marker is returned unchanged. -/
def QString.arg (template a : QString) : QString :=
  match argMin (argScan ArgState.plain template) with
  | some m => argFill m a (argScan ArgState.plain template)
  | none => template

/-! ## Building the requests -/

/-- The URL templates of lines 13-18. -/
def kGetDirentsUrl : QString := qs "api2/repos/%1/dir/"
/-- Template of the file endpoint. -/
def kGetFilesUrl : QString := qs "api2/repos/%1/file/"
/-- Template of the shared-link endpoint. -/
def kGetFileSharedLinkUrl : QString := qs "api2/repos/%1/file/shared-link/"
/-- Template of the upload-link endpoint. -/
def kGetFileUploadUrl : QString := qs "api2/repos/%1/upload-link/"
/-- Template of the update-link endpoint. -/
def kGetFileUpdateUrl : QString := qs "api2/repos/%1/update-link/"
/-- The fixed starred-files endpoint. -/
def kGetStarredFilesUrl : QString := qs "api2/starredfiles/"

/-- `SeafileApiRequest::Method`. -/
inductive Method where
  | METHOD_GET
  | METHOD_POST
  | METHOD_PUT
  | METHOD_DELETE
  deriving DecidableEq, Repr

/-- The account a request is issued for (`account.h` is not under src/; section 3:
base URL and auth token). `getAbsoluteUrl` joins a relative path onto the base URL
and is taken as given. -/
structure Account where
  token : QString
  getAbsoluteUrl : QString → QString

/-- Modelled from the spec: the base class `SeafileApiRequest` (`api/api-request.h`
is not under src/). Section 3, RequestSpec: target URL, method, query parameters and
form parameters, each a mapping from name to value; plus the token the constructor
receives. The mappings are kept as association lists in the order the names were
first set. -/
structure SeafileApiRequest where
  url : QString
  method : Method
  token : QString
  params : List (QString × QString)
  form_params : List (QString × QString)
  deriving DecidableEq, Repr

/-- Modelled from the spec: the base-class constructor
`SeafileApiRequest(url, method, token)`: no parameter is set yet. -/
def SeafileApiRequest.new (url : QString) (method : Method) (token : QString) :
    SeafileApiRequest :=
  { url := url, method := method, token := token, params := [], form_params := [] }

/-- Setting `name` to `value` in a mapping: a name already present gets the new
value, a new name goes to the end. -/
def setParam (m : List (QString × QString)) (name value : QString) :
    List (QString × QString) :=
  if m.any (fun kv => kv.1 == name) then
    m.map (fun kv => if kv.1 == name then (name, value) else kv)
  else m ++ [(name, value)]

/-- Modelled from the spec: `SeafileApiRequest::setUrlParam`, which sets one query
parameter. -/
def SeafileApiRequest.setUrlParam (r : SeafileApiRequest) (name value : QString) :
    SeafileApiRequest :=
  { r with params := setParam r.params name value }

/-- Modelled from the spec: `SeafileApiRequest::setFormParam`, which sets one form
parameter. -/
def SeafileApiRequest.setFormParam (r : SeafileApiRequest) (name value : QString) :
    SeafileApiRequest :=
  { r with form_params := setParam r.form_params name value }

/-- `GetDirentsRequest::GetDirentsRequest` (lines 26-36): the base request. The
members `repo_id_` and `path_` it also stores are copies of its arguments. -/
def GetDirentsRequest.new (account : Account) (repo_id path : QString) : SeafileApiRequest :=
  let r := SeafileApiRequest.new (account.getAbsoluteUrl (kGetDirentsUrl.arg repo_id))
    Method.METHOD_GET account.token
  r.setUrlParam (qs "p") path

/-- `GetFileDownloadLinkRequest::GetFileDownloadLinkRequest` (lines 61-69). -/
def GetFileDownloadLinkRequest.new (account : Account) (repo_id path : QString) :
    SeafileApiRequest :=
  let r := SeafileApiRequest.new (account.getAbsoluteUrl (kGetFilesUrl.arg repo_id))
    Method.METHOD_GET account.token
  r.setUrlParam (qs "p") path

/-- `GetSharedLinkRequest::GetSharedLinkRequest` (lines 96-106). -/
def GetSharedLinkRequest.new (account : Account) (repo_id path : QString) (is_file : Bool) :
    SeafileApiRequest :=
  let r := SeafileApiRequest.new (account.getAbsoluteUrl (kGetFileSharedLinkUrl.arg repo_id))
    Method.METHOD_PUT account.token
  let r := r.setFormParam (qs "type") (if is_file then qs "f" else qs "d")
  r.setFormParam (qs "p") path

/-- `CreateDirentRequest::CreateDirentRequest` (lines 115-125). -/
def CreateDirentRequest.new (account : Account) (repo_id path : QString) : SeafileApiRequest :=
  let r := SeafileApiRequest.new (account.getAbsoluteUrl (kGetDirentsUrl.arg repo_id))
    Method.METHOD_GET account.token
  let r := r.setUrlParam (qs "p") path
  r.setFormParam (qs "operation") (qs "mkdir")

/-- `RenameDirentRequest::RenameDirentRequest` (lines 134-146). -/
def RenameDirentRequest.new (account : Account) (repo_id path new_path : QString) :
    SeafileApiRequest :=
  let r := SeafileApiRequest.new (account.getAbsoluteUrl (kGetDirentsUrl.arg repo_id))
    Method.METHOD_POST account.token
  let r := r.setUrlParam (qs "p") path
  let r := r.setFormParam (qs "operation") (qs "rename")
  r.setFormParam (qs "newname") new_path

/-- `RemoveDirentRequest::RemoveDirentRequest` (lines 153-161). -/
def RemoveDirentRequest.new (account : Account) (repo_id path : QString) : SeafileApiRequest :=
  let r := SeafileApiRequest.new (account.getAbsoluteUrl (kGetDirentsUrl.arg repo_id))
    Method.METHOD_DELETE account.token
  r.setUrlParam (qs "p") path

/-- `GetFileUploadLinkRequest::GetFileUploadLinkRequest` (lines 168-174). -/
def GetFileUploadLinkRequest.new (account : Account) (repo_id : QString) : SeafileApiRequest :=
  SeafileApiRequest.new (account.getAbsoluteUrl (kGetFileUploadUrl.arg repo_id))
    Method.METHOD_GET account.token

/-- `GetFileUpdateLinkRequest::GetFileUpdateLinkRequest` (lines 196-202). -/
def GetFileUpdateLinkRequest.new (account : Account) (repo_id : QString) : SeafileApiRequest :=
  SeafileApiRequest.new (account.getAbsoluteUrl (kGetFileUpdateUrl.arg repo_id))
    Method.METHOD_GET account.token

/-- `RenameFileRequest::RenameFileRequest` (lines 224-236). -/
def RenameFileRequest.new (account : Account) (repo_id path new_name : QString) :
    SeafileApiRequest :=
  let r := SeafileApiRequest.new (account.getAbsoluteUrl (kGetFilesUrl.arg repo_id))
    Method.METHOD_POST account.token
  let r := r.setUrlParam (qs "p") path
  let r := r.setFormParam (qs "operation") (qs "rename")
  r.setFormParam (qs "newname") new_name

/-- `MoveFileRequest::MoveFileRequest` (lines 243-257). -/
def MoveFileRequest.new (account : Account) (repo_id path new_repo_id new_path : QString) :
    SeafileApiRequest :=
  let r := SeafileApiRequest.new (account.getAbsoluteUrl (kGetFilesUrl.arg repo_id))
    Method.METHOD_POST account.token
  let r := r.setUrlParam (qs "p") path
  let r := r.setFormParam (qs "operation") (qs "move")
  let r := r.setFormParam (qs "dst_repo") new_repo_id
  r.setFormParam (qs "dst_dir") new_path

/-- `RemoveFileRequest::RemoveFileRequest` (lines 264-272). -/
def RemoveFileRequest.new (account : Account) (repo_id path : QString) : SeafileApiRequest :=
  let r := SeafileApiRequest.new (account.getAbsoluteUrl (kGetFilesUrl.arg repo_id))
    Method.METHOD_DELETE account.token
  r.setUrlParam (qs "p") path

/-- `StarFileRequest::StarFileRequest` (lines 279-288). -/
def StarFileRequest.new (account : Account) (repo_id path : QString) : SeafileApiRequest :=
  let r := SeafileApiRequest.new (account.getAbsoluteUrl kGetStarredFilesUrl)
    Method.METHOD_POST account.token
  let r := r.setFormParam (qs "repo_id") repo_id
  r.setFormParam (qs "p") path

/-- `UnstarFileRequest::UnstarFileRequest` (lines 295-304). -/
def UnstarFileRequest.new (account : Account) (repo_id path : QString) : SeafileApiRequest :=
  let r := SeafileApiRequest.new (account.getAbsoluteUrl kGetStarredFilesUrl)
    Method.METHOD_DELETE account.token
  let r := r.setUrlParam (qs "repo_id") repo_id
  r.setUrlParam (qs "p") path

/-- One call of a constructor: the class and the arguments after `account`. -/
inductive Invocation where
  | getDirents (repo_id path : QString)
  | getFileDownloadLink (repo_id path : QString)
  | getSharedLink (repo_id path : QString) (is_file : Bool)
  | createDirent (repo_id path : QString)
  | renameDirent (repo_id path new_path : QString)
  | removeDirent (repo_id path : QString)
  | getFileUploadLink (repo_id : QString)
  | getFileUpdateLink (repo_id : QString)
  | renameFile (repo_id path new_name : QString)
  | moveFile (repo_id path new_repo_id new_path : QString)
  | removeFile (repo_id path : QString)
  | starFile (repo_id path : QString)
  | unstarFile (repo_id path : QString)
  deriving DecidableEq, Repr

/-- The request the constructor call builds. -/
def construct (account : Account) : Invocation → SeafileApiRequest
  | Invocation.getDirents repo_id path => GetDirentsRequest.new account repo_id path
  | Invocation.getFileDownloadLink repo_id path =>
    GetFileDownloadLinkRequest.new account repo_id path
  | Invocation.getSharedLink repo_id path is_file =>
    GetSharedLinkRequest.new account repo_id path is_file
  | Invocation.createDirent repo_id path => CreateDirentRequest.new account repo_id path
  | Invocation.renameDirent repo_id path new_path =>
    RenameDirentRequest.new account repo_id path new_path
  | Invocation.removeDirent repo_id path => RemoveDirentRequest.new account repo_id path
  | Invocation.getFileUploadLink repo_id => GetFileUploadLinkRequest.new account repo_id
  | Invocation.getFileUpdateLink repo_id => GetFileUpdateLinkRequest.new account repo_id
  | Invocation.renameFile repo_id path new_name =>
    RenameFileRequest.new account repo_id path new_name
  | Invocation.moveFile repo_id path new_repo_id new_path =>
    MoveFileRequest.new account repo_id path new_repo_id new_path
  | Invocation.removeFile repo_id path => RemoveFileRequest.new account repo_id path
  | Invocation.starFile repo_id path => StarFileRequest.new account repo_id path
  | Invocation.unstarFile repo_id path => UnstarFileRequest.new account repo_id path

/-! ## The operation table of the specification (section 6) -/

/-- One row of the section 6 table, filled in for one call: method, path (the
template with the repository id in place of `%1`), query parameters and form
parameters. -/
structure TableRow where
  method : Method
  path : QString
  query : List (QString × QString)
  form : List (QString × QString)
  deriving DecidableEq, Repr

/-- The section 6 table, written from the words of the specification: the path is
passed as query parameter `p` unless the row says otherwise. -/
def tableRow : Invocation → TableRow
  | Invocation.getDirents repo_id path =>
    { method := Method.METHOD_GET, path := qs "api2/repos/" ++ repo_id ++ qs "/dir/",
      query := [(qs "p", path)], form := [] }
  | Invocation.getFileDownloadLink repo_id path =>
    { method := Method.METHOD_GET, path := qs "api2/repos/" ++ repo_id ++ qs "/file/",
      query := [(qs "p", path)], form := [] }
  | Invocation.getSharedLink repo_id path is_file =>
    { method := Method.METHOD_PUT,
      path := qs "api2/repos/" ++ repo_id ++ qs "/file/shared-link/",
      query := [],
      form := [(qs "type", if is_file then qs "f" else qs "d"), (qs "p", path)] }
  | Invocation.createDirent repo_id path =>
    { method := Method.METHOD_GET, path := qs "api2/repos/" ++ repo_id ++ qs "/dir/",
      query := [(qs "p", path)], form := [(qs "operation", qs "mkdir")] }
  | Invocation.renameDirent repo_id path new_name =>
    { method := Method.METHOD_POST, path := qs "api2/repos/" ++ repo_id ++ qs "/dir/",
      query := [(qs "p", path)],
      form := [(qs "operation", qs "rename"), (qs "newname", new_name)] }
  | Invocation.removeDirent repo_id path =>
    { method := Method.METHOD_DELETE, path := qs "api2/repos/" ++ repo_id ++ qs "/dir/",
      query := [(qs "p", path)], form := [] }
  | Invocation.getFileUploadLink repo_id =>
    { method := Method.METHOD_GET,
      path := qs "api2/repos/" ++ repo_id ++ qs "/upload-link/",
      query := [], form := [] }
  | Invocation.getFileUpdateLink repo_id =>
    { method := Method.METHOD_GET,
      path := qs "api2/repos/" ++ repo_id ++ qs "/update-link/",
      query := [], form := [] }
  | Invocation.renameFile repo_id path new_name =>
    { method := Method.METHOD_POST, path := qs "api2/repos/" ++ repo_id ++ qs "/file/",
      query := [(qs "p", path)],
      form := [(qs "operation", qs "rename"), (qs "newname", new_name)] }
  | Invocation.moveFile repo_id path dst_repo dst_dir =>
    { method := Method.METHOD_POST, path := qs "api2/repos/" ++ repo_id ++ qs "/file/",
      query := [(qs "p", path)],
      form := [(qs "operation", qs "move"), (qs "dst_repo", dst_repo),
               (qs "dst_dir", dst_dir)] }
  | Invocation.removeFile repo_id path =>
    { method := Method.METHOD_DELETE, path := qs "api2/repos/" ++ repo_id ++ qs "/file/",
      query := [(qs "p", path)], form := [] }
  | Invocation.starFile repo_id path =>
    { method := Method.METHOD_POST, path := qs "api2/starredfiles/",
      query := [], form := [(qs "repo_id", repo_id), (qs "p", path)] }
  | Invocation.unstarFile repo_id path =>
    { method := Method.METHOD_DELETE, path := qs "api2/starredfiles/",
      query := [(qs "repo_id", repo_id), (qs "p", path)], form := [] }

/-- The request a table row stands for, issued for `account`. -/
def TableRow.toRequest (row : TableRow) (account : Account) : SeafileApiRequest :=
  { url := account.getAbsoluteUrl row.path, method := row.method, token := account.token,
    params := row.query, form_params := row.form }

/-! ## The dirent decoder of the specification (section 4.3) -/

/-- The value of member `name` of a JSON object, if it has one. -/
def jsonField (members : List (QString × Json)) (name : QString) : Option Json :=
  match members.find? (fun kv => kv.1 == name) with
  | some kv => some kv.2
  | none => none

/-- A JSON number member as an optional integer. -/
def jsonOptInt (members : List (QString × Json)) (name : QString) : Option Int :=
  match jsonField members name with
  | some (Json.num n) => some n
  | _ => none

/-- Lower-case hexadecimal digit: `0`-`9` or `a`-`f`. -/
def isLowerHex (ch : QChar) : Bool :=
  (48 ≤ ch.val && ch.val ≤ 57) || (97 ≤ ch.val && ch.val ≤ 102)

/-- Hexadecimal digit of either case. -/
def isHex (ch : QChar) : Bool :=
  isLowerHex ch || (65 ≤ ch.val && ch.val ≤ 70)

/-- Modelled from the spec: decoding one element of a listing (`seaf-dirent.cpp` is
not under src/). Section 4.3: the element must be an object with at least `name`
(string), `id` (40-hex string) and `type` (string, `"file"` or `"dir"`,
case-sensitive); anything else does not decode. -/
def SeafDirent.fromJSON : Json → Option SeafDirent
  | Json.obj members =>
    match jsonField members (qs "name"), jsonField members (qs "id"),
      jsonField members (qs "type") with
    | some (Json.str name), some (Json.str id), some (Json.str ty) =>
      if id.length = 40 ∧ id.all isLowerHex then
        if ty = qs "file" then
          some { name := name, type := DirentType.FILE, id := id,
                 size := jsonOptInt members (qs "size"),
                 mtime := jsonOptInt members (qs "mtime") }
        else if ty = qs "dir" then
          some { name := name, type := DirentType.DIR, id := id,
                 size := jsonOptInt members (qs "size"),
                 mtime := jsonOptInt members (qs "mtime") }
        else none
      else none
    | _, _, _ => none
  | _ => none

/-- All elements decoded in input order, or `none` as soon as one does not decode. -/
def SeafDirent.decodeAll : List Json → Option (List SeafDirent)
  | [] => some []
  | item :: rest =>
    match SeafDirent.fromJSON item with
    | none => none
    | some d =>
      match SeafDirent.decodeAll rest with
      | none => none
      | some ds => some (d :: ds)

/-- Modelled from the spec: `SeafDirent::listFromJSON(json, &error)`
(`seaf-dirent.cpp` is not under src/). Section 4.3: the input is a JSON array; the
output keeps the input order; one element that does not decode fails the whole
decode, with no partial result. The list is the value returned, the second
component what is left in `error`. -/
def SeafDirent.listFromJSON : Json → List SeafDirent × Option json_error_t
  | Json.arr items =>
    match SeafDirent.decodeAll items with
    | some ds => (ds, none)
    | none => ([], some { text := qs "bad dirent" })
  | _ => ([], some { text := qs "not an array" })

/-! ## Stand-in collaborators for concrete runs -/

/-- Byte-for-byte conversion of a byte array to a string (Latin-1). -/
def latin1 (b : QByteArray) : QString := b.map (fun x => Fin.ofNat x.val)

/-- A stand-in for `QUrl::isValid` on concrete inputs: the empty string and strings
with a space are invalid, everything else is valid. -/
def stubIsValid (s : QString) : Bool :=
  !s.isEmpty && s.all (fun ch => ch.val != 32)

/-- A stand-in for the JSON parser on concrete inputs: it knows the documents of
`docs` and rejects every other body. -/
def stubParse (docs : List (QByteArray × Json)) (body : QByteArray) :
    Except json_error_t Json :=
  match docs.find? (fun d => d.1 == body) with
  | some d => Except.ok d.2
  | none => Except.error { text := qs "parse error" }

/-- Concrete collaborators: Latin-1 conversion, the stand-in URL check, the parser
that knows `docs`, and the dirent decoder of section 4.3. -/
def stubCollab (docs : List (QByteArray × Json)) : Collab :=
  { toQString := latin1
    toQString_nil := rfl
    isValid := stubIsValid
    parseJSON := stubParse docs
    listFromJSON := SeafDirent.listFromJSON }

/-- The body `[]` and its tree. -/
def docEmptyArray : QByteArray × Json := (ascii "[]", Json.arr [])

/-- The listing of the scenario of section 8,
`[{"name":"a.txt","id":"bbbb...","type":"file"}]`, and its tree. -/
def docOneFile : QByteArray × Json :=
  (ascii "[\x7b\"name\":\"a.txt\",\"id\":\"bbbbbbbbbbbbbbbbbbbbbbbbbbbbbbbbbbbbbbbb\",\"type\":\"file\"\x7d]",
   Json.arr [Json.obj [(qs "name", Json.str (qs "a.txt")),
                       (qs "id", Json.str (List.replicate 40 98)),
                       (qs "type", Json.str (qs "file"))]])

/-- A listing whose only element has no `type` member, and its tree. -/
def docNoType : QByteArray × Json :=
  (ascii "[\x7b\"name\":\"a.txt\",\"id\":\"bbbbbbbbbbbbbbbbbbbbbbbbbbbbbbbbbbbbbbbb\"\x7d]",
   Json.arr [Json.obj [(qs "name", Json.str (qs "a.txt")),
                       (qs "id", Json.str (List.replicate 40 98))]])

/-- A listing whose second element has the unrecognized type `symlink`, and its
tree. -/
def docBadType : QByteArray × Json :=
  (ascii "[\x7b\"name\":\"a.txt\",\"id\":\"bbbbbbbbbbbbbbbbbbbbbbbbbbbbbbbbbbbbbbbb\",\"type\":\"file\"\x7d,\x7b\"name\":\"l\",\"id\":\"bbbbbbbbbbbbbbbbbbbbbbbbbbbbbbbbbbbbbbbb\",\"type\":\"symlink\"\x7d]",
   Json.arr [Json.obj [(qs "name", Json.str (qs "a.txt")),
                       (qs "id", Json.str (List.replicate 40 98)),
                       (qs "type", Json.str (qs "file"))],
             Json.obj [(qs "name", Json.str (qs "l")),
                       (qs "id", Json.str (List.replicate 40 98)),
                       (qs "type", Json.str (qs "symlink"))]])

/-- A reply with the given `oid` header and body. -/
def replyWithOid (oid body : QByteArray) : QNetworkReply :=
  { rawHeaders := [(ascii "oid", oid)], body := body }

/-- A reply with no header at all. -/
def replyNoHeaders (body : QByteArray) : QNetworkReply :=
  { rawHeaders := [], body := body }

/-- A reply with the given `Location` header and body. -/
def replyWithLocation (location body : QByteArray) : QNetworkReply :=
  { rawHeaders := [(ascii "Location", location)], body := body }

/-! ## Basic facts -/

/-- A header that is not there reads as the empty string. -/
theorem rawHeader_of_hasRawHeader_false (reply : QNetworkReply) (name : QByteArray)
    (h : reply.hasRawHeader name = false) : reply.rawHeader name = [] := by
  unfold QNetworkReply.hasRawHeader at h
  unfold QNetworkReply.rawHeader
  cases hf : reply.findRawHeader name with
  | none => rfl
  | some v => simp [hf] at h

/-- Removing the first code unit and chopping the last leaves the inner part. -/
theorem remove_chop_eq (s : QString) : (s.remove 0 1).chop 1 = s.tail.dropLast := by
  simp [QString.remove, QString.chop, List.dropLast_eq_take]

/-- The inner part of a string of size `n` has size `n - 2`. -/
theorem length_inner (s : QString) : s.tail.dropLast.length = s.length - 2 := by
  simp [List.length_dropLast, List.length_tail, Nat.sub_sub]

/-- Code unit `i` of the inner part is code unit `i + 1` of the string. -/
theorem getElem?_inner (s : QString) (i : Nat) (hi : i < s.length - 2) :
    s.tail.dropLast[i]? = s[i + 1]? := by
  cases s with
  | nil => simp at hi
  | cons a t =>
    have ht : i < t.length - 1 := by simp at hi; omega
    simp [List.dropLast_eq_take, List.getElem?_take, ht]

/-- The common body of the three link handlers, as a function of the decoded body. -/
theorem link_effects (c : Collab) (k : LinkClass) (self : GetFileDownloadLinkRequest)
    (reply : QNetworkReply) :
    requestSuccess c k.toRequestClass self reply =
      if (c.toQString reply.readAll).length ≤ 2 then
        [Effect.emit (Signal.failed (ApiError.fromHttpError 500))]
      else if c.isValid (c.toQString reply.readAll).tail.dropLast then
        [Effect.emit (Signal.success (Payload.text (c.toQString reply.readAll).tail.dropLast))]
      else [Effect.emit (Signal.failed (ApiError.fromHttpError 500))] := by
  cases k <;>
    simp only [LinkClass.toRequestClass, requestSuccess,
      GetFileDownloadLinkRequest.requestSuccess, GetFileUploadLinkRequest.requestSuccess,
      GetFileUpdateLinkRequest.requestSuccess, remove_chop_eq] <;>
    split <;> try rfl
  all_goals cases c.isValid (c.toQString reply.readAll).tail.dropLast <;> rfl

/-! ## Directory listings: the `oid` header check -/

/-- C1, as the code has it: when the `oid` header is absent or its length is not 40,
`GetDirentsRequest::requestSuccess` does exactly one thing, whatever the body is: it
emits `failed` with `ApiError::fromHttpError(500)`, an error of kind
`TRANSPORT_ERROR` carrying status 500. It emits no `success` and does not parse the
body. -/
theorem C1_bad_oid_fails_with_http_500 (c : Collab) (reply : QNetworkReply)
    (h : reply.hasRawHeader (ascii "oid") = false ∨
      (c.toQString (reply.rawHeader (ascii "oid"))).length ≠ 40) :
    GetDirentsRequest.requestSuccess c reply =
        [Effect.emit (Signal.failed (ApiError.fromHttpError 500))] ∧
      (ApiError.fromHttpError 500).kind = ErrorKind.TRANSPORT_ERROR ∧
      (ApiError.fromHttpError 500).httpStatus = some 500 ∧
      Effect.parseJSON ∉ GetDirentsRequest.requestSuccess c reply ∧
      ∀ p, Signal.success p ∉ emitted (GetDirentsRequest.requestSuccess c reply) := by
  have hlen : (c.toQString (reply.rawHeader (ascii "oid"))).length ≠ 40 := by
    rcases h with h | h
    · rw [rawHeader_of_hasRawHeader_false reply _ h, c.toQString_nil]
      decide
    · exact h
  have hrun : GetDirentsRequest.requestSuccess c reply =
      [Effect.emit (Signal.failed (ApiError.fromHttpError 500))] := by
    unfold GetDirentsRequest.requestSuccess
    simp [hlen]
  refine ⟨hrun, rfl, rfl, ?_, ?_⟩
  · rw [hrun]; simp
  · intro p; rw [hrun]; simp [emitted]

/-- C1 at two concrete replies carrying a well-formed listing as body: one with no
header, one with an `oid` of three characters. Both end in the one `failed`. -/
theorem C1_bad_oid_witness :
    GetDirentsRequest.requestSuccess (stubCollab [docOneFile]) (replyNoHeaders docOneFile.1) =
        [Effect.emit (Signal.failed (ApiError.fromHttpError 500))] ∧
      GetDirentsRequest.requestSuccess (stubCollab [docOneFile])
          (replyWithOid (ascii "abc") docOneFile.1) =
        [Effect.emit (Signal.failed (ApiError.fromHttpError 500))] :=
  ⟨(C1_bad_oid_fails_with_http_500 (stubCollab [docOneFile]) (replyNoHeaders docOneFile.1)
      (Or.inl (by decide))).1,
   (C1_bad_oid_fails_with_http_500 (stubCollab [docOneFile])
      (replyWithOid (ascii "abc") docOneFile.1) (Or.inr (by decide))).1⟩

/-- C1 as stated fails: for a reply with no `oid` header the one signal emitted is
`failed` with kind `TRANSPORT_ERROR` and status 500, and no emitted error has kind
`MALFORMED_RESPONSE`. -/
theorem C1_kind_counterexample :
    (replyNoHeaders docOneFile.1).hasRawHeader (ascii "oid") = false ∧
      emitted (GetDirentsRequest.requestSuccess (stubCollab [docOneFile])
          (replyNoHeaders docOneFile.1)) =
        [Signal.failed { kind := ErrorKind.TRANSPORT_ERROR, httpStatus := some 500,
                         message := none }] ∧
      ¬ ∃ e, Signal.failed e ∈ emitted (GetDirentsRequest.requestSuccess
          (stubCollab [docOneFile]) (replyNoHeaders docOneFile.1)) ∧
        e.kind = ErrorKind.MALFORMED_RESPONSE := by
  refine ⟨by decide, by decide, ?_⟩
  rintro ⟨e, he, hk⟩
  have h : emitted (GetDirentsRequest.requestSuccess (stubCollab [docOneFile])
      (replyNoHeaders docOneFile.1)) =
        [Signal.failed { kind := ErrorKind.TRANSPORT_ERROR, httpStatus := some 500,
                         message := none }] := by decide
  rw [h] at he
  simp at he
  subst he
  simp at hk

/-- C2, as the code has it: the header check looks at the length only. For every
reply whose `oid` header has length 40 and contains a character that is not a
hexadecimal digit, a body that parses gives `success` with the list
`SeafDirent::listFromJSON` returns and no `failed`; a body that does not parse gives
`failed` with `ApiError::fromJsonError()`. -/
theorem C2_nonhex_oid_of_length_40_is_accepted (c : Collab) (reply : QNetworkReply)
    (hlen : (c.toQString (reply.rawHeader (ascii "oid"))).length = 40)
    (_hnonhex : ∃ ch ∈ c.toQString (reply.rawHeader (ascii "oid")), isHex ch = false) :
    (∀ root, c.parseJSON reply.readAll = Except.ok root →
        emitted (GetDirentsRequest.requestSuccess c reply) =
          [Signal.success (Payload.dirents (c.listFromJSON root).1)]) ∧
      (∀ err, c.parseJSON reply.readAll = Except.error err →
        emitted (GetDirentsRequest.requestSuccess c reply) =
          [Signal.failed ApiError.fromJsonError]) := by
  constructor
  · intro root hroot
    unfold GetDirentsRequest.requestSuccess
    simp [hlen, hroot, emitted]
  · intro err herr
    unfold GetDirentsRequest.requestSuccess
    simp [hlen, herr, emitted]

/-- C2 at a concrete reply: `oid` is forty times `z`, the body is the listing of the
scenario of section 8, and the listing is delivered. -/
theorem C2_nonhex_oid_witness :
    emitted (GetDirentsRequest.requestSuccess (stubCollab [docOneFile])
        (replyWithOid (List.replicate 40 122) docOneFile.1)) =
      [Signal.success (Payload.dirents
        [{ name := qs "a.txt", type := DirentType.FILE, id := List.replicate 40 98,
           size := none, mtime := none }])] :=
  (C2_nonhex_oid_of_length_40_is_accepted (stubCollab [docOneFile])
    (replyWithOid (List.replicate 40 122) docOneFile.1) (by decide)
    ⟨122, by decide, by decide⟩).1 docOneFile.2 (by rfl)

/-- C2 as stated fails: an `oid` of forty `z` (length 40, no hexadecimal digit at
all) with a parsable body ends in `success`, and no `failed` is emitted. -/
theorem C2_nonhex_oid_counterexample :
    (latin1 ((replyWithOid (List.replicate 40 122) docEmptyArray.1).rawHeader
        (ascii "oid"))).length = 40 ∧
      (latin1 ((replyWithOid (List.replicate 40 122) docEmptyArray.1).rawHeader
        (ascii "oid"))).all (fun ch => !isHex ch) = true ∧
      emitted (GetDirentsRequest.requestSuccess (stubCollab [docEmptyArray])
          (replyWithOid (List.replicate 40 122) docEmptyArray.1)) =
        [Signal.success (Payload.dirents [])] := by
  refine ⟨by decide, by decide, by decide⟩

/-! ## Directory listings: the decode step -/

/-- C3, as the code has it: the handler never looks at what
`SeafDirent::listFromJSON` leaves in `error`. For a reply with a 40-character `oid`
and a body that parses, a decode that reports an error still ends in `success`,
carrying exactly the list the decoder returned, and no `failed` is emitted. -/
theorem C3_decode_error_still_emits_success (c : Collab) (reply : QNetworkReply) (root : Json)
    (hlen : (c.toQString (reply.rawHeader (ascii "oid"))).length = 40)
    (hroot : c.parseJSON reply.readAll = Except.ok root)
    (_hfail : (c.listFromJSON root).2 ≠ none) :
    emitted (GetDirentsRequest.requestSuccess c reply) =
        [Signal.success (Payload.dirents (c.listFromJSON root).1)] ∧
      ∀ e, Signal.failed e ∉ emitted (GetDirentsRequest.requestSuccess c reply) := by
  have hrun : emitted (GetDirentsRequest.requestSuccess c reply) =
      [Signal.success (Payload.dirents (c.listFromJSON root).1)] := by
    unfold GetDirentsRequest.requestSuccess
    simp [hlen, hroot, emitted]
  refine ⟨hrun, ?_⟩
  intro e
  rw [hrun]
  simp

/-- C3 at a concrete reply: the only element of the listing has no `type` member,
the decoder of section 4.3 reports an error and returns no entry, and the handler
emits `success` with the empty list. -/
theorem C3_decode_error_witness :
    emitted (GetDirentsRequest.requestSuccess (stubCollab [docNoType])
        (replyWithOid (List.replicate 40 97) docNoType.1)) =
      [Signal.success (Payload.dirents [])] :=
  (C3_decode_error_still_emits_success (stubCollab [docNoType])
    (replyWithOid (List.replicate 40 97) docNoType.1) docNoType.2
    (by decide) (by rfl) (by decide)).1

/-- C3 as stated fails, for both causes it names. A listing whose element lacks
`type`, and a listing whose second element has type `symlink`, each make the decoder
of section 4.3 report an error; with an `oid` of forty `a` the handler emits
`success` with the empty list both times, not `failed`. -/
theorem C3_decode_error_counterexample :
    ((SeafDirent.listFromJSON docNoType.2).2.isSome = true ∧
      emitted (GetDirentsRequest.requestSuccess (stubCollab [docNoType])
          (replyWithOid (List.replicate 40 97) docNoType.1)) =
        [Signal.success (Payload.dirents [])]) ∧
    ((SeafDirent.listFromJSON docBadType.2).2.isSome = true ∧
      emitted (GetDirentsRequest.requestSuccess (stubCollab [docBadType])
          (replyWithOid (List.replicate 40 97) docBadType.1)) =
        [Signal.success (Payload.dirents [])]) := by
  refine ⟨⟨by decide, by decide⟩, ⟨by decide, by decide⟩⟩

/-! ## The quoted-URL handlers -/

/-- C4: for each of the three link handlers and every body whose decoded text has
more than two code units and whose inner part (first and last code unit removed) is
a valid URL, the handler emits exactly `success` with that inner part: its size is
the size of the text minus two and its code unit `i` is code unit `i + 1` of the
text. Nothing is asked of the two code units removed. -/
theorem C4_quoted_url_success (c : Collab) (k : LinkClass)
    (self : GetFileDownloadLinkRequest) (reply : QNetworkReply)
    (hlen : 2 < (c.toQString reply.readAll).length)
    (hvalid : c.isValid (c.toQString reply.readAll).tail.dropLast = true) :
    emitted (requestSuccess c k.toRequestClass self reply) =
        [Signal.success (Payload.text (c.toQString reply.readAll).tail.dropLast)] ∧
      (c.toQString reply.readAll).tail.dropLast.length =
        (c.toQString reply.readAll).length - 2 ∧
      ∀ i, i < (c.toQString reply.readAll).length - 2 →
        (c.toQString reply.readAll).tail.dropLast[i]? = (c.toQString reply.readAll)[i + 1]? := by
  refine ⟨?_, length_inner _, fun i hi => getElem?_inner _ i hi⟩
  rw [link_effects]
  simp [Nat.not_le.mpr hlen, hvalid, emitted]

/-- C4 at the body of twelve characters `"http://x/y"` (quotes included), for the
download-link handler: the payload is `http://x/y`. -/
theorem C4_quoted_url_witness :
    emitted (requestSuccess (stubCollab []) RequestClass.GetFileDownloadLinkRequest
        { file_id_ := [] } (replyNoHeaders (ascii "\"http://x/y\""))) =
      [Signal.success (Payload.text (qs "http://x/y"))] :=
  (C4_quoted_url_success (stubCollab []) LinkClass.download { file_id_ := [] }
    (replyNoHeaders (ascii "\"http://x/y\"")) (by decide) (by decide)).1

/-- C5, as the code has it: for each of the three link handlers, a decoded body of
at most two code units, or one whose inner part is not a valid URL, gives exactly one
signal: `failed` with `ApiError::fromHttpError(500)`, an error of kind
`TRANSPORT_ERROR` carrying status 500. No `success` is emitted. -/
theorem C5_quoted_url_failure_is_http_500 (c : Collab) (k : LinkClass)
    (self : GetFileDownloadLinkRequest) (reply : QNetworkReply)
    (h : (c.toQString reply.readAll).length ≤ 2 ∨
      c.isValid (c.toQString reply.readAll).tail.dropLast = false) :
    emitted (requestSuccess c k.toRequestClass self reply) =
        [Signal.failed (ApiError.fromHttpError 500)] ∧
      (ApiError.fromHttpError 500).kind = ErrorKind.TRANSPORT_ERROR ∧
      (ApiError.fromHttpError 500).httpStatus = some 500 ∧
      ∀ p, Signal.success p ∉ emitted (requestSuccess c k.toRequestClass self reply) := by
  have hrun : emitted (requestSuccess c k.toRequestClass self reply) =
      [Signal.failed (ApiError.fromHttpError 500)] := by
    rw [link_effects]
    rcases h with h | h
    · simp [h, emitted]
    · by_cases hle : (c.toQString reply.readAll).length ≤ 2
      · simp [hle, emitted]
      · simp [hle, h, emitted]
  refine ⟨hrun, rfl, rfl, ?_⟩
  intro p
  rw [hrun]
  simp

/-- C5 at two concrete bodies for the update-link handler: the two-character body
`""`, and a quoted text with a space inside, which the stand-in URL check rejects. -/
theorem C5_quoted_url_failure_witness :
    emitted (requestSuccess (stubCollab []) RequestClass.GetFileUpdateLinkRequest
        { file_id_ := [] } (replyNoHeaders (ascii "\"\""))) =
        [Signal.failed (ApiError.fromHttpError 500)] ∧
      emitted (requestSuccess (stubCollab []) RequestClass.GetFileUpdateLinkRequest
        { file_id_ := [] } (replyNoHeaders (ascii "\"a b\""))) =
        [Signal.failed (ApiError.fromHttpError 500)] :=
  ⟨(C5_quoted_url_failure_is_http_500 (stubCollab []) LinkClass.update { file_id_ := [] }
      (replyNoHeaders (ascii "\"\"")) (Or.inl (by decide))).1,
   (C5_quoted_url_failure_is_http_500 (stubCollab []) LinkClass.update { file_id_ := [] }
      (replyNoHeaders (ascii "\"a b\"")) (Or.inr (by decide))).1⟩

/-- C5 as stated fails: on the two-character body `""` each of the three link
handlers emits `failed` with kind `TRANSPORT_ERROR` and status 500, which is not of
kind `MALFORMED_RESPONSE`. -/
theorem C5_kind_counterexample :
    (latin1 (replyNoHeaders (ascii "\"\"")).readAll).length = 2 ∧
      emitted (requestSuccess (stubCollab []) RequestClass.GetFileDownloadLinkRequest
          { file_id_ := [] } (replyNoHeaders (ascii "\"\""))) =
        [Signal.failed { kind := ErrorKind.TRANSPORT_ERROR, httpStatus := some 500,
                         message := none }] ∧
      emitted (requestSuccess (stubCollab []) RequestClass.GetFileUploadLinkRequest
          { file_id_ := [] } (replyNoHeaders (ascii "\"\""))) =
        [Signal.failed { kind := ErrorKind.TRANSPORT_ERROR, httpStatus := some 500,
                         message := none }] ∧
      emitted (requestSuccess (stubCollab []) RequestClass.GetFileUpdateLinkRequest
          { file_id_ := [] } (replyNoHeaders (ascii "\"\""))) =
        [Signal.failed { kind := ErrorKind.TRANSPORT_ERROR, httpStatus := some 500,
                         message := none }] ∧
      ErrorKind.TRANSPORT_ERROR ≠ ErrorKind.MALFORMED_RESPONSE := by
  refine ⟨by decide, by decide, by decide, by decide, by decide⟩

/-! ## The constructors against the operation table -/

/-- C6: for every account and every constructor call, the request built is the row
of the section 6 table for that call: same method, URL (the template with the
repository id in place of `%1`, or the fixed starred-files endpoint), query
parameters and form parameters, with the token of the account. In particular:
create-directory-entry is a GET with query `p` and form `operation`=`mkdir`;
shared-link is a PUT with no query and form `type` (`f` or `d`) and `p`; star is a
POST with form `repo_id` and `p`; unstar is a DELETE with query `repo_id` and `p`;
the two link requests that take no path have no parameter. -/
theorem C6_constructors_match_table (account : Account) :
    (∀ inv, construct account inv = (tableRow inv).toRequest account) ∧
      (∀ repo_id path, CreateDirentRequest.new account repo_id path =
        { url := account.getAbsoluteUrl (qs "api2/repos/" ++ repo_id ++ qs "/dir/"),
          method := Method.METHOD_GET, token := account.token,
          params := [(qs "p", path)], form_params := [(qs "operation", qs "mkdir")] }) ∧
      (∀ repo_id path is_file, GetSharedLinkRequest.new account repo_id path is_file =
        { url := account.getAbsoluteUrl
            (qs "api2/repos/" ++ repo_id ++ qs "/file/shared-link/"),
          method := Method.METHOD_PUT, token := account.token, params := [],
          form_params := [(qs "type", if is_file then qs "f" else qs "d"),
                          (qs "p", path)] }) ∧
      (∀ repo_id path, StarFileRequest.new account repo_id path =
        { url := account.getAbsoluteUrl (qs "api2/starredfiles/"),
          method := Method.METHOD_POST, token := account.token, params := [],
          form_params := [(qs "repo_id", repo_id), (qs "p", path)] }) ∧
      (∀ repo_id path, UnstarFileRequest.new account repo_id path =
        { url := account.getAbsoluteUrl (qs "api2/starredfiles/"),
          method := Method.METHOD_DELETE, token := account.token,
          params := [(qs "repo_id", repo_id), (qs "p", path)], form_params := [] }) ∧
      (∀ repo_id, (GetFileUploadLinkRequest.new account repo_id).params = [] ∧
        (GetFileUploadLinkRequest.new account repo_id).form_params = [] ∧
        (GetFileUpdateLinkRequest.new account repo_id).params = [] ∧
        (GetFileUpdateLinkRequest.new account repo_id).form_params = []) := by
  refine ⟨?_, ?_, ?_, ?_, ?_, ?_⟩
  · intro inv
    cases inv <;> rfl
  · intro repo_id path; rfl
  · intro repo_id path is_file; rfl
  · intro repo_id path; rfl
  · intro repo_id path; rfl
  · intro repo_id; exact ⟨rfl, rfl, rfl, rfl⟩

/-! ## The shared-link handler -/

/-- C7: `GetSharedLinkRequest::requestSuccess` emits exactly `success` with the value
of the `Location` header as it stands (the empty string when there is none), and two
replies with the same `Location` value emit the same signal whatever their bodies
are. -/
theorem C7_shared_link_is_location_header (c : Collab) (reply other : QNetworkReply)
    (hsame : other.rawHeader (ascii "Location") = reply.rawHeader (ascii "Location")) :
    emitted (GetSharedLinkRequest.requestSuccess c reply) =
        [Signal.success (Payload.text (c.toQString (reply.rawHeader (ascii "Location"))))] ∧
      emitted (GetSharedLinkRequest.requestSuccess c other) =
        emitted (GetSharedLinkRequest.requestSuccess c reply) := by
  simp [GetSharedLinkRequest.requestSuccess, emitted, hsame]

/-- C7 at the header `Location: http://x/link`, once with an empty body and once
with another body: `success` with `http://x/link` both times. -/
theorem C7_shared_link_witness :
    emitted (GetSharedLinkRequest.requestSuccess (stubCollab [])
        (replyWithLocation (ascii "http://x/link") [])) =
        [Signal.success (Payload.text (qs "http://x/link"))] ∧
      emitted (GetSharedLinkRequest.requestSuccess (stubCollab [])
        (replyWithLocation (ascii "http://x/link") (ascii "ignored"))) =
        emitted (GetSharedLinkRequest.requestSuccess (stubCollab [])
          (replyWithLocation (ascii "http://x/link") [])) :=
  C7_shared_link_is_location_header (stubCollab [])
    (replyWithLocation (ascii "http://x/link") [])
    (replyWithLocation (ascii "http://x/link") (ascii "ignored")) (by decide)

/-! ## One terminal signal per call -/

/-- C8: for each of the thirteen handlers, every state of the object and every
reply, one call emits exactly one signal, which is a `success` or a `failed`. -/
theorem C8_exactly_one_terminal_signal (c : Collab) (k : RequestClass)
    (self : GetFileDownloadLinkRequest) (reply : QNetworkReply) :
    (emitted (requestSuccess c k self reply)).length = 1 ∧
      ((∃ p, emitted (requestSuccess c k self reply) = [Signal.success p]) ∨
        (∃ e, emitted (requestSuccess c k self reply) = [Signal.failed e])) := by
  cases k
  case GetDirentsRequest =>
    simp only [requestSuccess, GetDirentsRequest.requestSuccess]
    split
    · simp [emitted]
    · split <;> simp [emitted]
  case GetFileDownloadLinkRequest =>
    have h := link_effects c LinkClass.download self reply
    simp only [LinkClass.toRequestClass] at h
    rw [h]
    split
    · simp [emitted]
    · split <;> simp [emitted]
  case GetFileUploadLinkRequest =>
    have h := link_effects c LinkClass.upload self reply
    simp only [LinkClass.toRequestClass] at h
    rw [h]
    split
    · simp [emitted]
    · split <;> simp [emitted]
  case GetFileUpdateLinkRequest =>
    have h := link_effects c LinkClass.update self reply
    simp only [LinkClass.toRequestClass] at h
    rw [h]
    split
    · simp [emitted]
    · split <;> simp [emitted]
  all_goals
    simp [requestSuccess, GetSharedLinkRequest.requestSuccess,
      CreateDirentRequest.requestSuccess, RenameDirentRequest.requestSuccess,
      RemoveDirentRequest.requestSuccess, RenameFileRequest.requestSuccess,
      MoveFileRequest.requestSuccess, RemoveFileRequest.requestSuccess,
      StarFileRequest.requestSuccess, UnstarFileRequest.requestSuccess, emitted]

/-! ## Directory listings: the whole handler -/

/-- C9: `GetDirentsRequest::requestSuccess` emits a `success` exactly when the `oid`
header has length 40 and the body parses. When the length is not 40 the one signal
is `failed` with `ApiError::fromHttpError(500)`; when it is 40 and the parse fails
the one signal is `failed` with `ApiError::fromJsonError()`; when it is 40 and the
parse gives `root` the one signal is `success` with the list
`SeafDirent::listFromJSON` returns for `root`, passed on as it is. -/
theorem C9_get_dirents_cases (c : Collab) (reply : QNetworkReply) :
    ((∃ p, Signal.success p ∈ emitted (GetDirentsRequest.requestSuccess c reply)) ↔
        ((c.toQString (reply.rawHeader (ascii "oid"))).length = 40 ∧
          ∃ root, c.parseJSON reply.readAll = Except.ok root)) ∧
      ((c.toQString (reply.rawHeader (ascii "oid"))).length ≠ 40 →
        emitted (GetDirentsRequest.requestSuccess c reply) =
          [Signal.failed (ApiError.fromHttpError 500)]) ∧
      ((c.toQString (reply.rawHeader (ascii "oid"))).length = 40 →
        ∀ err, c.parseJSON reply.readAll = Except.error err →
          emitted (GetDirentsRequest.requestSuccess c reply) =
            [Signal.failed ApiError.fromJsonError]) ∧
      ((c.toQString (reply.rawHeader (ascii "oid"))).length = 40 →
        ∀ root, c.parseJSON reply.readAll = Except.ok root →
          emitted (GetDirentsRequest.requestSuccess c reply) =
            [Signal.success (Payload.dirents (c.listFromJSON root).1)]) := by
  have hbad : (c.toQString (reply.rawHeader (ascii "oid"))).length ≠ 40 →
      emitted (GetDirentsRequest.requestSuccess c reply) =
        [Signal.failed (ApiError.fromHttpError 500)] := by
    intro h
    unfold GetDirentsRequest.requestSuccess
    simp [h, emitted]
  have herr : (c.toQString (reply.rawHeader (ascii "oid"))).length = 40 →
      ∀ err, c.parseJSON reply.readAll = Except.error err →
        emitted (GetDirentsRequest.requestSuccess c reply) =
          [Signal.failed ApiError.fromJsonError] := by
    intro h err he
    unfold GetDirentsRequest.requestSuccess
    simp [h, he, emitted]
  have hok : (c.toQString (reply.rawHeader (ascii "oid"))).length = 40 →
      ∀ root, c.parseJSON reply.readAll = Except.ok root →
        emitted (GetDirentsRequest.requestSuccess c reply) =
          [Signal.success (Payload.dirents (c.listFromJSON root).1)] := by
    intro h root hr
    unfold GetDirentsRequest.requestSuccess
    simp [h, hr, emitted]
  refine ⟨⟨?_, ?_⟩, hbad, herr, hok⟩
  · rintro ⟨p, hp⟩
    by_cases hlen : (c.toQString (reply.rawHeader (ascii "oid"))).length = 40
    · refine ⟨hlen, ?_⟩
      cases hparse : c.parseJSON reply.readAll with
      | ok root => exact ⟨root, rfl⟩
      | error err =>
        rw [herr hlen err hparse] at hp
        simp at hp
    · rw [hbad hlen] at hp
      simp at hp
  · rintro ⟨hlen, root, hroot⟩
    exact ⟨Payload.dirents (c.listFromJSON root).1, by rw [hok hlen root hroot]; simp⟩

/-- C9 on three concrete replies, one for each branch: an `oid` of three characters;
an `oid` of forty `a` with a body the parser rejects; an `oid` of forty `a` with the
listing of the scenario of section 8. -/
theorem C9_get_dirents_witness :
    emitted (GetDirentsRequest.requestSuccess (stubCollab [docOneFile])
        (replyWithOid (ascii "abc") docOneFile.1)) =
        [Signal.failed (ApiError.fromHttpError 500)] ∧
      emitted (GetDirentsRequest.requestSuccess (stubCollab [docOneFile])
        (replyWithOid (List.replicate 40 97) (ascii "not json"))) =
        [Signal.failed ApiError.fromJsonError] ∧
      emitted (GetDirentsRequest.requestSuccess (stubCollab [docOneFile])
        (replyWithOid (List.replicate 40 97) docOneFile.1)) =
        [Signal.success (Payload.dirents
          [{ name := qs "a.txt", type := DirentType.FILE, id := List.replicate 40 98,
             size := none, mtime := none }])] :=
  ⟨(C9_get_dirents_cases (stubCollab [docOneFile])
      (replyWithOid (ascii "abc") docOneFile.1)).2.1 (by decide),
   (C9_get_dirents_cases (stubCollab [docOneFile])
      (replyWithOid (List.replicate 40 97) (ascii "not json"))).2.2.1 (by decide)
      { text := qs "parse error" } (by rfl),
   (C9_get_dirents_cases (stubCollab [docOneFile])
      (replyWithOid (List.replicate 40 97) docOneFile.1)).2.2.2 (by decide)
      docOneFile.2 (by rfl)⟩

/-! ## The download-link handler and `file_id_` -/

/-- C10: in `GetFileDownloadLinkRequest::requestSuccess` either one `success` is
emitted and `file_id_` becomes the value of the `oid` header (the empty string when
the reply has no such header), or one `failed` is emitted and the object is left as
it was. Which signal is emitted, and its payload, depend on the body alone: a reply
with the same body and any other headers gives the same effects. -/
theorem C10_file_id_written_on_success_only (c : Collab)
    (self : GetFileDownloadLinkRequest) (reply other : QNetworkReply)
    (hbody : other.readAll = reply.readAll) :
    (((∃ p, emitted (GetFileDownloadLinkRequest.requestSuccess c self reply).2 =
            [Signal.success p]) ∧
        (GetFileDownloadLinkRequest.requestSuccess c self reply).1.file_id_ =
          (if reply.hasRawHeader (ascii "oid") then
            c.toQString (reply.rawHeader (ascii "oid")) else [])) ∨
      ((∃ e, emitted (GetFileDownloadLinkRequest.requestSuccess c self reply).2 =
            [Signal.failed e]) ∧
        (GetFileDownloadLinkRequest.requestSuccess c self reply).1 = self)) ∧
      (GetFileDownloadLinkRequest.requestSuccess c self other).2 =
        (GetFileDownloadLinkRequest.requestSuccess c self reply).2 := by
  constructor
  · unfold GetFileDownloadLinkRequest.requestSuccess
    by_cases hle : (c.toQString reply.readAll).length ≤ 2
    · right
      simp [hle, emitted]
    · cases hv : c.isValid (((c.toQString reply.readAll).remove 0 1).chop 1)
      · right
        simp [hle, hv, emitted]
      · left
        simp [hle, hv, emitted]
  · unfold GetFileDownloadLinkRequest.requestSuccess
    rw [hbody]
    by_cases hle : (c.toQString reply.readAll).length ≤ 2
    · simp [hle]
    · cases hv : c.isValid (((c.toQString reply.readAll).remove 0 1).chop 1) <;>
        simp [hle, hv]

/-- C10 at the body `"http://x/y"`: with `oid: abc` the stored id becomes `abc`,
with no header it becomes empty, and the effects are the same; at the body `""` the
stored id `old` is kept. -/
theorem C10_file_id_witness :
    (GetFileDownloadLinkRequest.requestSuccess (stubCollab []) { file_id_ := qs "old" }
        (replyWithOid (ascii "abc") (ascii "\"http://x/y\""))) =
        ({ file_id_ := qs "abc" },
          [Effect.emit (Signal.success (Payload.text (qs "http://x/y")))]) ∧
      (GetFileDownloadLinkRequest.requestSuccess (stubCollab []) { file_id_ := qs "old" }
        (replyNoHeaders (ascii "\"http://x/y\""))) =
        ({ file_id_ := [] },
          [Effect.emit (Signal.success (Payload.text (qs "http://x/y")))]) ∧
      (GetFileDownloadLinkRequest.requestSuccess (stubCollab []) { file_id_ := qs "old" }
        (replyWithOid (ascii "abc") (ascii "\"\""))) =
        ({ file_id_ := qs "old" },
          [Effect.emit (Signal.failed (ApiError.fromHttpError 500))]) ∧
      (GetFileDownloadLinkRequest.requestSuccess (stubCollab []) { file_id_ := qs "old" }
        (replyNoHeaders (ascii "\"http://x/y\""))).2 =
        (GetFileDownloadLinkRequest.requestSuccess (stubCollab []) { file_id_ := qs "old" }
          (replyWithOid (ascii "abc") (ascii "\"http://x/y\""))).2 :=
  ⟨by decide, by decide, by decide,
   (C10_file_id_written_on_success_only (stubCollab []) { file_id_ := qs "old" }
      (replyWithOid (ascii "abc") (ascii "\"http://x/y\""))
      (replyNoHeaders (ascii "\"http://x/y\"")) (by rfl)).2⟩

end FileBrowser
